import Mathlib

/-!
Shallow embedding of the KubeServe PaaS deployment orchestration core.

The definitions below are translated from the repository's Python sources:

* `app/models/model.py` — the Model / ModelVersion / Deployment rows;
* `app/repositories/model_repository.py` and `app/repositories/user_repository.py`
  — the database queries (a `DB` value stands for the relational store, a
  `find?` over a row list stands for a `SELECT ... WHERE` by the same predicate,
  and the `next_*_id` counters stand for the autoincrement primary keys);
* `app/services/model_service.py` — `ModelService`, `ModelVersionService` and
  `DeploymentService` business logic (FastAPI `HTTPException`s become the
  `ApiError` sum type);
* `app/services/deployment_service.py` — `HelmDeploymentService`; the outcome
  of the one external `subprocess.run` invocation is passed in as a `CmdResult`
  value, and the external commands actually attempted are collected in an
  `ExtEvent` trace;
* `app/core/kubernetes_client.py` and `app/services/user_service.py` — tenant
  namespace setup at user registration; each Kubernetes API call's outcome is
  passed in (`ReadNsOutcome` / `ApiCallOutcome`) and the calls attempted are
  traced;
* `app/api/v1/models.py` — the two route handlers that overwrite the
  body-supplied parent id with the path parameter.

Python string operations used by the sources (`startswith`, slicing,
`split(sep, 1)`, `lower()`, substring containment with `in`) are embedded as
structural recursions over `List Char` so that every definition evaluates by
kernel reduction.
-/

/-- Python `s.startswith(pre)`. -/
def pyStartsWith (pre s : String) : Bool :=
  pre.toList.isPrefixOf s.toList

/-- Python `s[n:]` (drop the first `n` characters). -/
def pyDropChars (n : Nat) (s : String) : String :=
  String.mk (s.toList.drop n)

/-- Helper for Python `s.split(c, 1)`: the characters before the first
occurrence of `c`, and — when `c` occurs — the characters after it. -/
def pySplitOnceAux (c : Char) : List Char → List Char × Option (List Char)
  | [] => ([], none)
  | x :: xs =>
    if x = c then ([], some xs)
    else
      let r := pySplitOnceAux c xs
      (x :: r.1, r.2)

/-- Python `s.split(c, 1)` for a one-character separator: a list of one or two
parts. -/
def pySplitOnce (c : Char) (s : String) : List String :=
  match pySplitOnceAux c s.toList with
  | (pre, none) => [String.mk pre]
  | (pre, some rest) => [String.mk pre, String.mk rest]

/-- Python `s.lower()` (ASCII case folding, as `Char.toLower`). -/
def pyLower (s : String) : String :=
  String.mk (s.toList.map Char.toLower)

/-- Helper for Python `needle in haystack` on lists of characters. -/
def listHasSubstr (needle : List Char) : List Char → Bool
  | [] => needle.isEmpty
  | x :: xs => needle.isPrefixOf (x :: xs) || listHasSubstr needle xs

/-- Python `needle in haystack` (substring containment). -/
def pyInStr (needle haystack : String) : Bool :=
  listHasSubstr needle.toList haystack.toList

/-- Python `str(x)` for an `Optional[int]` (`None` prints as "None"). -/
def pyOptIntStr : Option Nat → String
  | some n => toString n
  | none => "None"

/-- Python `x or default` for an `Optional[str]` argument: `None` and the empty
string both fall back to the default. -/
def pyOrStr (x : Option String) (default : String) : String :=
  match x with
  | some s => if s = "" then default else s
  | none => default

/-- ModelType enumeration (app/models/model.py). -/
inductive ModelType
  | sklearn
  | pytorch
deriving DecidableEq, Repr

/-- ModelVersionStatus enumeration (app/models/model.py): Building / Ready /
Failed. -/
inductive ModelVersionStatus
  | building
  | ready
  | failed
deriving DecidableEq, Repr

/-- The string value of a ModelVersionStatus member. -/
def ModelVersionStatus.toStr : ModelVersionStatus → String
  | .building => "Building"
  | .ready => "Ready"
  | .failed => "Failed"

/-- A row of the `models` table (class Model, app/models/model.py). -/
structure ModelRow where
  id : Nat
  user_id : Nat
  name : String
  type : ModelType
deriving DecidableEq, Repr

/-- A row of the `model_versions` table (class ModelVersion). `model_id` is an
`Option` because the Python attribute may carry the body-supplied
`Optional[int]` before commit; committed rows hold `some _`. -/
structure ModelVersionRow where
  id : Nat
  model_id : Option Nat
  version_tag : String
  s3_path : String
  status : ModelVersionStatus
deriving DecidableEq, Repr

/-- A row of the `deployments` table (class Deployment). -/
structure DeploymentRow where
  id : Nat
  version_id : Option Nat
  k8s_service_name : String
  url : Option String
  replicas : Nat
deriving DecidableEq, Repr

/-- The relational store as the services see it: the three tables plus the
autoincrement counters for the two tables the services insert into. -/
structure DB where
  models : List ModelRow
  versions : List ModelVersionRow
  deployments : List DeploymentRow
  next_version_id : Nat
  next_deployment_id : Nat
deriving DecidableEq, Repr

/-- Schema ModelVersionCreate (app/schemas/model.py): `model_id` is Optional
in the body and set from the path by the route handler. -/
structure ModelVersionCreate where
  version_tag : String
  s3_path : String
  model_id : Option Nat
deriving DecidableEq, Repr

/-- Schema DeploymentCreate (app/schemas/model.py): `version_id` is Optional
in the body and set from the path by the route handler. -/
structure DeploymentCreate where
  replicas : Nat
  version_id : Option Nat
deriving DecidableEq, Repr

/-- An error surfaced to the caller: either a FastAPI HTTPException the
service raises deliberately (the four status codes the service layer uses,
each with its `detail` string), or an exception the service never catches —
an `AttributeError` escaping a handler — which the framework surfaces as a
plain 500 Internal Server Error. -/
inductive ApiError
  | notFound (detail : String)
  | forbidden (detail : String)
  | badRequest (detail : String)
  | internalServerError (detail : String)
  | unhandledAttributeError (msg : String)
deriving DecidableEq, Repr

/-- The numeric HTTP status of an ApiError; an unhandled exception becomes a
500 at the framework boundary. -/
def ApiError.status_code : ApiError → Nat
  | .notFound _ => 404
  | .forbidden _ => 403
  | .badRequest _ => 400
  | .internalServerError _ => 500
  | .unhandledAttributeError _ => 500

/-- One attempted external side effect (a Helm subprocess invocation or a
Kubernetes API call), recorded in the order the code attempts them. -/
inductive ExtEvent
  | helmInstall (release_name ns : String)
  | helmUninstall (release_name ns : String)
  | readNamespace (ns : String)
  | createNamespace (ns : String)
  | createResourceQuota (ns : String)
  | createNetworkPolicy (ns : String)
deriving DecidableEq, Repr

/-- Result of a service call that can mutate the store and touch external
systems: the returned value or raised HTTPException, the store afterwards, and
the trace of external calls attempted. -/
structure Outcome (σ : Type) (α : Type) where
  result : Except ApiError α
  state : σ
  events : List ExtEvent
deriving Repr

/-- The settings fields the deployment path reads (app/config.py plus the
ingress host / base path the services and tests assume configured). -/
structure Settings where
  MINIO_ENDPOINT : String
  MINIO_ACCESS_KEY : String
  MINIO_SECRET_KEY : String
  MINIO_BUCKET_NAME : String
  MINIO_USE_SSL : Bool
  INGRESS_HOST : String
  INGRESS_BASE_PATH : String
deriving DecidableEq, Repr

/-- ModelRepository.get_by_id: `SELECT Model WHERE id == model_id AND user_id
== user_id`. The id is an `Option` because callers may hand the query a
body-supplied `Optional[int]`; a `None` id matches no row. -/
def ModelRepository.get_by_id (db : DB) (model_id : Option Nat) (user_id : Nat) :
    Option ModelRow :=
  db.models.find? (fun m => model_id == some m.id && m.user_id == user_id)

/-- ModelVersionRepository.get_by_id: `SELECT ModelVersion WHERE id ==
version_id`. -/
def ModelVersionRepository.get_by_id (db : DB) (version_id : Option Nat) :
    Option ModelVersionRow :=
  db.versions.find? (fun v => version_id == some v.id)

/-- ModelVersionRepository.get_by_model_and_tag: `SELECT ModelVersion WHERE
model_id == model_id AND version_tag == version_tag` (exact, case-sensitive
string equality). -/
def ModelVersionRepository.get_by_model_and_tag (db : DB) (model_id : Option Nat)
    (version_tag : String) : Option ModelVersionRow :=
  db.versions.find? (fun v => v.model_id == model_id && v.version_tag == version_tag)

/-- ModelVersionRepository.create: insert a new version in state Building with
the next autoincrement id. -/
def ModelVersionRepository.create (db : DB) (version_data : ModelVersionCreate) :
    ModelVersionRow × DB :=
  let version : ModelVersionRow :=
    { id := db.next_version_id
      model_id := version_data.model_id
      version_tag := version_data.version_tag
      s3_path := version_data.s3_path
      status := ModelVersionStatus.building }
  (version,
   { db with
      versions := db.versions ++ [version]
      next_version_id := db.next_version_id + 1 })

/-- ModelVersionRepository.update: commit the mutated version object (replace
the row with the same primary key). -/
def ModelVersionRepository.update (db : DB) (version : ModelVersionRow) : DB :=
  { db with versions := db.versions.map (fun v => if v.id = version.id then version else v) }

/-- DeploymentRepository.get_by_id: `SELECT Deployment WHERE id ==
deployment_id`. -/
def DeploymentRepository.get_by_id (db : DB) (deployment_id : Option Nat) :
    Option DeploymentRow :=
  db.deployments.find? (fun d => deployment_id == some d.id)

/-- DeploymentRepository.create: generate the unique Kubernetes service name
`model-{version_id}-{int(time.time())}` (the wall clock is passed in) and
insert the row with `url = None`. -/
def DeploymentRepository.create (db : DB) (deployment_data : DeploymentCreate)
    (clock : Nat) : DeploymentRow × DB :=
  let k8s_service_name :=
    "model-" ++ pyOptIntStr deployment_data.version_id ++ "-" ++ toString clock
  let deployment : DeploymentRow :=
    { id := db.next_deployment_id
      version_id := deployment_data.version_id
      k8s_service_name := k8s_service_name
      url := none
      replicas := deployment_data.replicas }
  (deployment,
   { db with
      deployments := db.deployments ++ [deployment]
      next_deployment_id := db.next_deployment_id + 1 })

/-- DeploymentRepository.update: commit the mutated deployment object. -/
def DeploymentRepository.update (db : DB) (deployment : DeploymentRow) : DB :=
  { db with
     deployments := db.deployments.map (fun d => if d.id = deployment.id then deployment else d) }

/-- DeploymentRepository.delete: delete the row with the object's primary
key. -/
def DeploymentRepository.delete (db : DB) (deployment : DeploymentRow) : DB :=
  { db with deployments := db.deployments.filter (fun d => d.id ≠ deployment.id) }

/-- Outcome of the single external subprocess invocation made by
HelmDeploymentService._run_helm_command: either the call raised
(TimeoutExpired / SubprocessError, re-raised to the caller) or it completed
with a return code, stdout and stderr. -/
inductive CmdResult
  | raised (msg : String)
  | completed (returncode : Int) (stdout stderr : String)
deriving DecidableEq, Repr

/-- The dictionary HelmDeploymentService.deploy_model returns on success. -/
structure DeployInfo where
  release_name : String
  ns : String
  url : Option String
  stdout : String
deriving DecidableEq, Repr

/-- HelmDeploymentService.deploy_model (app/services/deployment_service.py):
checks the chart exists, runs `helm install`, fails loudly on a raised call or
a non-zero exit, and on success constructs the public URL from the ingress
host, the fixed NodePort 30080 and the ingress path. `chart_exists` stands for
`self.chart_path.exists()` and `cmd` for the outcome of the helm subprocess;
the second component is the trace of external commands attempted. -/
def HelmDeploymentService.deploy_model (s : Settings) (chart_exists : Bool)
    (cmd : CmdResult) (release_name nspace s3_path s3_endpoint s3_access_key
    s3_secret_key s3_bucket : String) (s3_use_ssl : Bool) (replicas : Nat)
    (image_repository : Option String) (image_tag : String)
    (ingress_enabled : Bool) (ingress_host ingress_path : Option String) :
    Except String DeployInfo × List ExtEvent :=
  if !chart_exists then
    (Except.error "Helm chart not found", [])
  else
    let _image_repository :=
      pyOrStr image_repository
        ((pySplitOnce ':' s.MINIO_ENDPOINT).headD "" ++ ":5001/kubeserve-base")
    let ingress_host := pyOrStr ingress_host s.INGRESS_HOST
    let ingress_path := pyOrStr ingress_path (s.INGRESS_BASE_PATH ++ "/" ++ release_name)
    match cmd with
    | CmdResult.raised msg =>
      (Except.error msg, [ExtEvent.helmInstall release_name nspace])
    | CmdResult.completed returncode stdout stderr =>
      if returncode ≠ 0 then
        (Except.error ("Helm install failed: " ++ stderr),
         [ExtEvent.helmInstall release_name nspace])
      else
        (Except.ok
          { release_name := release_name
            ns := nspace
            url :=
              if ingress_enabled then
                some ("http://" ++ ingress_host ++ ":30080" ++ ingress_path)
              else none
            stdout := stdout },
         [ExtEvent.helmInstall release_name nspace])

/-- HelmDeploymentService.undeploy_model: runs `helm uninstall`; a non-zero
exit whose stderr contains "not found" (case-insensitively) is treated as
success (idempotent teardown), any other non-zero exit raises, and a raised
subprocess call propagates. -/
def HelmDeploymentService.undeploy_model (cmd : CmdResult)
    (release_name nspace : String) : Except String Unit × List ExtEvent :=
  match cmd with
  | CmdResult.raised msg =>
    (Except.error msg, [ExtEvent.helmUninstall release_name nspace])
  | CmdResult.completed returncode _stdout stderr =>
    if returncode ≠ 0 then
      if pyInStr "not found" (pyLower stderr) then
        (Except.ok (), [ExtEvent.helmUninstall release_name nspace])
      else
        (Except.error ("Helm uninstall failed: " ++ stderr),
         [ExtEvent.helmUninstall release_name nspace])
    else
      (Except.ok (), [ExtEvent.helmUninstall release_name nspace])

/-- HelmDeploymentService.get_deployment_status: `helm status`; a non-zero
exit yields the sentinel "not_found" status instead of an error. -/
def HelmDeploymentService.get_deployment_status (cmd : CmdResult)
    (_release_name _nspace : String) : String :=
  match cmd with
  | CmdResult.raised _ => "raised"
  | CmdResult.completed returncode _ _ =>
    if returncode ≠ 0 then "not_found" else "deployed"

/-- ModelService.get_model (app/services/model_service.py): lookup by
`(id, owner)` compound predicate; a miss — absent id or other owner alike —
is reported as 404 "Model not found". -/
def ModelService.get_model (db : DB) (model_id : Nat) (user_id : Nat) :
    Except ApiError ModelRow :=
  match ModelRepository.get_by_id db (some model_id) user_id with
  | none => Except.error (ApiError.notFound "Model not found")
  | some model => Except.ok model

/-- ModelVersionService.create_version: 404 unless the parent model exists and
belongs to the caller; 400 when the (model_id, version_tag) pair already
exists; otherwise insert the new version. The returned DB is the store after
the call. -/
def ModelVersionService.create_version (db : DB) (version_data : ModelVersionCreate)
    (user_id : Nat) : Except ApiError ModelVersionRow × DB :=
  match ModelRepository.get_by_id db version_data.model_id user_id with
  | none => (Except.error (ApiError.notFound "Model not found"), db)
  | some _model =>
    match ModelVersionRepository.get_by_model_and_tag db version_data.model_id
        version_data.version_tag with
    | some _existing =>
      (Except.error (ApiError.badRequest
        ("Version tag '" ++ version_data.version_tag ++ "' already exists for this model")), db)
    | none =>
      let r := ModelVersionRepository.create db version_data
      (Except.ok r.1, r.2)

/-- ModelVersionService.get_version: 404 when the version is absent, 403 when
it exists but its owning model does not resolve to the caller. -/
def ModelVersionService.get_version (db : DB) (version_id : Nat) (user_id : Nat) :
    Except ApiError ModelVersionRow :=
  match ModelVersionRepository.get_by_id db (some version_id) with
  | none => Except.error (ApiError.notFound "Model version not found")
  | some version =>
    match ModelRepository.get_by_id db version.model_id user_id with
    | none => Except.error (ApiError.forbidden "Access denied")
    | some _ => Except.ok version

/-- ModelVersionService.update_version_status: the `status` parameter shadows
the `from fastapi import HTTPException, status` module import, so in both
error branches `status.HTTP_404_NOT_FOUND` / `status.HTTP_403_FORBIDDEN` is an
attribute access on the ModelVersionStatus enum value and raises
AttributeError before the HTTPException is constructed — surfaced by the
framework as a 500, not the intended 404/403. The guards still fire before the
status field is written, so the store is returned unchanged on both error
paths; only when the version resolves and is owned is the status written and
committed. -/
def ModelVersionService.update_version_status (db : DB) (version_id : Nat)
    (status : ModelVersionStatus) (user_id : Nat) :
    Except ApiError ModelVersionRow × DB :=
  match ModelVersionRepository.get_by_id db (some version_id) with
  | none =>
    (Except.error (ApiError.unhandledAttributeError
      "ModelVersionStatus has no attribute HTTP_404_NOT_FOUND"), db)
  | some version =>
    match ModelRepository.get_by_id db version.model_id user_id with
    | none =>
      (Except.error (ApiError.unhandledAttributeError
        "ModelVersionStatus has no attribute HTTP_403_FORBIDDEN"), db)
    | some _ =>
      let version2 := { version with status := status }
      (Except.ok version2, ModelVersionRepository.update db version2)

/-- ModelVersionService.update_version_s3_path: same guard chain as the status
update, then the s3_path field is written and committed. -/
def ModelVersionService.update_version_s3_path (db : DB) (version_id : Nat)
    (s3_path : String) (user_id : Nat) : Except ApiError ModelVersionRow × DB :=
  match ModelVersionRepository.get_by_id db (some version_id) with
  | none => (Except.error (ApiError.notFound "Model version not found"), db)
  | some version =>
    match ModelRepository.get_by_id db version.model_id user_id with
    | none => (Except.error (ApiError.forbidden "Access denied"), db)
    | some _ =>
      let version2 := { version with s3_path := s3_path }
      (Except.ok version2, ModelVersionRepository.update db version2)

/-- DeploymentService.create_deployment (app/services/model_service.py):
resolve the version (404), resolve its owning model by `(model_id, owner)`
(403), reject unless the version is READY (400) and has an s3_path (400); only
then insert the Deployment row, parse the s3 path, invoke the Helm install,
and either write the URL back or — on any exception from the Helm step —
delete the just-created row and surface a 500 with the cause. `clock` is
`int(time.time())`; `chart_exists` / `helm_cmd` are the external world's
inputs to the Helm call. -/
def DeploymentService.create_deployment (s : Settings) (chart_exists : Bool)
    (helm_cmd : CmdResult) (db : DB) (deployment_data : DeploymentCreate)
    (user_id clock : Nat) : Outcome DB DeploymentRow :=
  match ModelVersionRepository.get_by_id db deployment_data.version_id with
  | none => ⟨Except.error (ApiError.notFound "Model version not found"), db, []⟩
  | some version =>
    match ModelRepository.get_by_id db version.model_id user_id with
    | none => ⟨Except.error (ApiError.forbidden "Access denied"), db, []⟩
    | some _model =>
      if version.status ≠ ModelVersionStatus.ready then
        ⟨Except.error (ApiError.badRequest
          ("Cannot deploy version with status '" ++ version.status.toStr
            ++ "'. Version must be READY.")), db, []⟩
      else if version.s3_path = "" then
        ⟨Except.error (ApiError.badRequest
          "Model version must have an S3 path. Please upload the model first."), db, []⟩
      else
        let r := DeploymentRepository.create db deployment_data clock
        let deployment := r.1
        let db1 := r.2
        let nspace := "user-" ++ toString user_id
        let release_name := deployment.k8s_service_name
        let s3_path0 := version.s3_path
        let s3_path1 :=
          if pyStartsWith "s3://" s3_path0 then pyDropChars 5 s3_path0 else s3_path0
        let parts := pySplitOnce '/' s3_path1
        let s3_bucket := parts.headD s.MINIO_BUCKET_NAME
        let s3_key := (parts.drop 1).headD ""
        let full_s3_path :=
          if s3_key ≠ "" then "s3://" ++ s3_bucket ++ "/" ++ s3_key
          else "s3://" ++ s3_bucket ++ "/"
        let s3_endpoint := "minio:9000"
        let ingress_path := s.INGRESS_BASE_PATH ++ "/" ++ toString deployment.id
        let helm :=
          HelmDeploymentService.deploy_model s chart_exists helm_cmd release_name
            nspace full_s3_path s3_endpoint s.MINIO_ACCESS_KEY s.MINIO_SECRET_KEY
            s3_bucket s.MINIO_USE_SSL deployment_data.replicas none "latest" true
            (some s.INGRESS_HOST) (some ingress_path)
        match helm.1 with
        | Except.error e =>
          ⟨Except.error (ApiError.internalServerError
            ("Failed to deploy model to Kubernetes: " ++ e)),
           DeploymentRepository.delete db1 deployment, helm.2⟩
        | Except.ok _info =>
          let deployment2 :=
            { deployment with
               url := some ("http://" ++ s.INGRESS_HOST ++ ":30080"
                 ++ s.INGRESS_BASE_PATH ++ "/" ++ toString deployment.id) }
          ⟨Except.ok deployment2, DeploymentRepository.update db1 deployment2, helm.2⟩

/-- DeploymentService.get_deployment: 404 for an absent deployment or version,
403 when the chain does not resolve to the caller. -/
def DeploymentService.get_deployment (db : DB) (deployment_id : Nat)
    (user_id : Nat) : Except ApiError DeploymentRow :=
  match DeploymentRepository.get_by_id db (some deployment_id) with
  | none => Except.error (ApiError.notFound "Deployment not found")
  | some deployment =>
    match ModelVersionRepository.get_by_id db deployment.version_id with
    | none => Except.error (ApiError.notFound "Model version not found")
    | some version =>
      match ModelRepository.get_by_id db version.model_id user_id with
      | none => Except.error (ApiError.forbidden "Access denied")
      | some _ => Except.ok deployment

/-- DeploymentService.delete_deployment: resolve the ownership chain
(404/404/403), attempt the Helm uninstall with every exception logged and
swallowed, then delete the row unconditionally. -/
def DeploymentService.delete_deployment (helm_cmd : CmdResult) (db : DB)
    (deployment_id : Nat) (user_id : Nat) : Outcome DB Unit :=
  match DeploymentRepository.get_by_id db (some deployment_id) with
  | none => ⟨Except.error (ApiError.notFound "Deployment not found"), db, []⟩
  | some deployment =>
    match ModelVersionRepository.get_by_id db deployment.version_id with
    | none => ⟨Except.error (ApiError.notFound "Model version not found"), db, []⟩
    | some version =>
      match ModelRepository.get_by_id db version.model_id user_id with
      | none => ⟨Except.error (ApiError.forbidden "Access denied"), db, []⟩
      | some _ =>
        let nspace := "user-" ++ toString user_id
        let helm :=
          HelmDeploymentService.undeploy_model helm_cmd deployment.k8s_service_name nspace
        ⟨Except.ok (), DeploymentRepository.delete db deployment, helm.2⟩

/-- Route handler POST /models/\x7bmodel_id\x7d/versions
(app/api/v1/models.py): the path parameter overwrites the body-supplied
model_id before the service is invoked. -/
def api_create_model_version (db : DB) (model_id : Nat)
    (version_data : ModelVersionCreate) (user_id : Nat) :
    Except ApiError ModelVersionRow × DB :=
  ModelVersionService.create_version db { version_data with model_id := some model_id }
    user_id

/-- Route handler POST /versions/\x7bversion_id\x7d/deployments
(app/api/v1/models.py): the path parameter overwrites the body-supplied
version_id before the service is invoked. -/
def api_create_deployment (s : Settings) (chart_exists : Bool)
    (helm_cmd : CmdResult) (db : DB) (version_id : Nat)
    (deployment_data : DeploymentCreate) (user_id clock : Nat) :
    Outcome DB DeploymentRow :=
  DeploymentService.create_deployment s chart_exists helm_cmd db
    { deployment_data with version_id := some version_id } user_id clock

/-- Outcome of the `read_namespace` existence probe in
KubernetesClient.namespace_exists: found, a 404 (absent), or another
ApiException (re-raised). -/
inductive ReadNsOutcome
  | found
  | notFound
  | apiError (msg : String)
deriving DecidableEq, Repr

/-- Outcome of a Kubernetes create call: success, a 409 conflict (already
exists), or another ApiException (re-raised). -/
inductive ApiCallOutcome
  | success
  | conflict
  | apiError (msg : String)
deriving DecidableEq, Repr

/-- KubernetesClient.namespace_exists (app/core/kubernetes_client.py):
read_namespace; 404 means absent, any other ApiException propagates. -/
def KubernetesClient.namespace_exists (read_outcome : ReadNsOutcome)
    (nspace : String) : Except String Bool × List ExtEvent :=
  match read_outcome with
  | ReadNsOutcome.found => (Except.ok true, [ExtEvent.readNamespace nspace])
  | ReadNsOutcome.notFound => (Except.ok false, [ExtEvent.readNamespace nspace])
  | ReadNsOutcome.apiError msg => (Except.error msg, [ExtEvent.readNamespace nspace])

/-- KubernetesClient.create_namespace: no-op when the namespace already
exists; otherwise create it, treating a 409 as success and re-raising any
other ApiException. -/
def KubernetesClient.create_namespace (read_outcome : ReadNsOutcome)
    (create_outcome : ApiCallOutcome) (nspace : String) :
    Except String Unit × List ExtEvent :=
  match KubernetesClient.namespace_exists read_outcome nspace with
  | (Except.error msg, evs) => (Except.error msg, evs)
  | (Except.ok true, evs) => (Except.ok (), evs)
  | (Except.ok false, evs) =>
    match create_outcome with
    | ApiCallOutcome.success => (Except.ok (), evs ++ [ExtEvent.createNamespace nspace])
    | ApiCallOutcome.conflict => (Except.ok (), evs ++ [ExtEvent.createNamespace nspace])
    | ApiCallOutcome.apiError msg =>
      (Except.error msg, evs ++ [ExtEvent.createNamespace nspace])

/-- KubernetesClient.create_resource_quota: install the quota object; a 409 is
success, any other ApiException re-raises. -/
def KubernetesClient.create_resource_quota (outcome : ApiCallOutcome)
    (nspace : String) : Except String Unit × List ExtEvent :=
  match outcome with
  | ApiCallOutcome.success => (Except.ok (), [ExtEvent.createResourceQuota nspace])
  | ApiCallOutcome.conflict => (Except.ok (), [ExtEvent.createResourceQuota nspace])
  | ApiCallOutcome.apiError msg => (Except.error msg, [ExtEvent.createResourceQuota nspace])

/-- KubernetesClient.create_network_policy: install the default-deny-egress
policy; a 409 is success, any other ApiException re-raises. -/
def KubernetesClient.create_network_policy (outcome : ApiCallOutcome)
    (nspace : String) : Except String Unit × List ExtEvent :=
  match outcome with
  | ApiCallOutcome.success => (Except.ok (), [ExtEvent.createNetworkPolicy nspace])
  | ApiCallOutcome.conflict => (Except.ok (), [ExtEvent.createNetworkPolicy nspace])
  | ApiCallOutcome.apiError msg => (Except.error msg, [ExtEvent.createNetworkPolicy nspace])

/-- KubernetesClient.setup_user_namespace: derive `user-{user_id}`, then
create namespace, ResourceQuota and NetworkPolicy in that order; any
individual failure propagates and stops the sequence. -/
def KubernetesClient.setup_user_namespace (read_outcome : ReadNsOutcome)
    (ns_outcome quota_outcome policy_outcome : ApiCallOutcome) (user_id : Nat) :
    Except String String × List ExtEvent :=
  let nspace := "user-" ++ toString user_id
  match KubernetesClient.create_namespace read_outcome ns_outcome nspace with
  | (Except.error msg, evs1) => (Except.error msg, evs1)
  | (Except.ok _, evs1) =>
    match KubernetesClient.create_resource_quota quota_outcome nspace with
    | (Except.error msg, evs2) => (Except.error msg, evs1 ++ evs2)
    | (Except.ok _, evs2) =>
      match KubernetesClient.create_network_policy policy_outcome nspace with
      | (Except.error msg, evs3) => (Except.error msg, evs1 ++ evs2 ++ evs3)
      | (Except.ok _, evs3) => (Except.ok nspace, evs1 ++ evs2 ++ evs3)

/-- A row of the `users` table (class User, app/models/user.py). -/
structure UserRow where
  id : Nat
  email : String
  password_hash : String
deriving DecidableEq, Repr

/-- The users table with its autoincrement counter. -/
structure UserDB where
  users : List UserRow
  next_user_id : Nat
deriving DecidableEq, Repr

/-- UserRepository.get_by_email: `SELECT User WHERE email == email`. -/
def UserRepository.get_by_email (db : UserDB) (email : String) : Option UserRow :=
  db.users.find? (fun u => u.email == email)

/-- UserRepository.create: insert the new user with the next autoincrement
id. -/
def UserRepository.create (db : UserDB) (email password_hash : String) :
    UserRow × UserDB :=
  let user : UserRow := { id := db.next_user_id, email := email, password_hash := password_hash }
  (user, { users := db.users ++ [user], next_user_id := db.next_user_id + 1 })

/-- UserService.create_user (app/services/user_service.py): 400 when the email
is already registered; otherwise hash the password, persist the user, then
attempt the Kubernetes tenant setup with any exception logged and suppressed —
the registration still succeeds. The setup call's outcome is discarded exactly
as the `try/except` does. -/
def UserService.create_user (hash : String → String) (read_outcome : ReadNsOutcome)
    (ns_outcome quota_outcome policy_outcome : ApiCallOutcome) (db : UserDB)
    (email password : String) : Outcome UserDB UserRow :=
  match UserRepository.get_by_email db email with
  | some _ => ⟨Except.error (ApiError.badRequest "Email already registered"), db, []⟩
  | none =>
    let password_hash := hash password
    let r := UserRepository.create db email password_hash
    let setup :=
      KubernetesClient.setup_user_namespace read_outcome ns_outcome quota_outcome
        policy_outcome r.1.id
    ⟨Except.ok r.1, r.2, setup.2⟩

deriving instance DecidableEq for Except

/-- Concrete settings used by the witness scenarios (the values the test suite
configures). -/
def sampleSettings : Settings :=
  { MINIO_ENDPOINT := "localhost:9000"
    MINIO_ACCESS_KEY := "ak"
    MINIO_SECRET_KEY := "sk"
    MINIO_BUCKET_NAME := "kubeserve-models"
    MINIO_USE_SSL := false
    INGRESS_HOST := "localhost"
    INGRESS_BASE_PATH := "/api/v1/predict" }

/-- Witness fixture: a model owned by user 7. -/
def modelA : ModelRow := { id := 1, user_id := 7, name := "M", type := ModelType.sklearn }

/-- Witness fixture: a model owned by user 8. -/
def modelB : ModelRow := { id := 2, user_id := 8, name := "N", type := ModelType.sklearn }

/-- Witness fixture: a Building version of model 1 with no artifact yet. -/
def versionBuilding : ModelVersionRow :=
  { id := 10, model_id := some 1, version_tag := "v1", s3_path := ""
    status := ModelVersionStatus.building }

/-- Witness fixture: a Ready version of model 1 with an uploaded artifact. -/
def versionReady : ModelVersionRow :=
  { id := 11, model_id := some 1, version_tag := "v2"
    s3_path := "s3://kubeserve-models/u/m/model.joblib"
    status := ModelVersionStatus.ready }

/-- Witness fixture: a version of user 8's model 2. -/
def versionOfB : ModelVersionRow :=
  { id := 12, model_id := some 2, version_tag := "v1", s3_path := ""
    status := ModelVersionStatus.building }

/-- Witness fixture: a deployment of version 11 (owned, via model 1, by user
7). -/
def deployA : DeploymentRow :=
  { id := 20, version_id := some 11, k8s_service_name := "model-11-50"
    url := some "http://localhost:30080/api/v1/predict/20", replicas := 1 }

/-- Witness fixture: a deployment of user 8's version 12. -/
def deployB : DeploymentRow :=
  { id := 21, version_id := some 12, k8s_service_name := "model-12-51"
    url := none, replicas := 1 }

/-- Witness fixture: the store holding the rows above. -/
def db0 : DB :=
  { models := [modelA, modelB]
    versions := [versionBuilding, versionReady, versionOfB]
    deployments := [deployA, deployB]
    next_version_id := 13
    next_deployment_id := 22 }

/-- Witness fixture: an empty users table. -/
def userDB0 : UserDB := { users := [], next_user_id := 1 }


/-- C1: create_deployment succeeds only when the referenced version is Ready
with a non-empty artifact path; when the version resolves and is owned by the
caller but either condition fails, the request is rejected with a 400 before
any external call and the store is unchanged — for every status value. -/
theorem create_deployment_readiness_gate (s : Settings) (chart_exists : Bool)
    (helm_cmd : CmdResult) (db : DB) (deployment_data : DeploymentCreate)
    (user_id clock : Nat) :
    (∀ dep,
      (DeploymentService.create_deployment s chart_exists helm_cmd db deployment_data
        user_id clock).result = Except.ok dep →
      ∃ version,
        ModelVersionRepository.get_by_id db deployment_data.version_id = some version ∧
        version.status = ModelVersionStatus.ready ∧ version.s3_path ≠ "")
    ∧
    (∀ version,
      ModelVersionRepository.get_by_id db deployment_data.version_id = some version →
      ModelRepository.get_by_id db version.model_id user_id ≠ none →
      (version.status ≠ ModelVersionStatus.ready ∨ version.s3_path = "") →
      (∃ d,
        (DeploymentService.create_deployment s chart_exists helm_cmd db deployment_data
          user_id clock).result = Except.error (ApiError.badRequest d)) ∧
      (DeploymentService.create_deployment s chart_exists helm_cmd db deployment_data
        user_id clock).state = db ∧
      (DeploymentService.create_deployment s chart_exists helm_cmd db deployment_data
        user_id clock).events = []) := by
  constructor
  · intro dep hdep
    unfold DeploymentService.create_deployment at hdep
    cases hv : ModelVersionRepository.get_by_id db deployment_data.version_id with
    | none =>
      simp only [hv] at hdep
      exact Except.noConfusion hdep
    | some version =>
      refine ⟨version, rfl, ?_⟩
      simp only [hv] at hdep
      cases hm : ModelRepository.get_by_id db version.model_id user_id with
      | none =>
        simp only [hm] at hdep
        exact Except.noConfusion hdep
      | some m =>
        simp only [hm] at hdep
        by_cases hs : version.status = ModelVersionStatus.ready
        · by_cases hp : version.s3_path = ""
          · rw [if_neg (by simp [hs]), if_pos hp] at hdep
            exact Except.noConfusion hdep
          · exact ⟨hs, hp⟩
        · rw [if_pos hs] at hdep
          exact Except.noConfusion hdep
  · intro version hv hm hfail
    unfold DeploymentService.create_deployment
    simp only [hv]
    obtain ⟨m, hm2⟩ := Option.ne_none_iff_exists'.mp hm
    simp only [hm2]
    rcases hfail with hs | hp
    · rw [if_pos hs]
      exact ⟨⟨_, rfl⟩, rfl, rfl⟩
    · by_cases hs : version.status = ModelVersionStatus.ready
      · rw [if_neg (by simp [hs]), if_pos hp]
        exact ⟨⟨_, rfl⟩, rfl, rfl⟩
      · rw [if_pos hs]
        exact ⟨⟨_, rfl⟩, rfl, rfl⟩

/-- C1 witness: in db0, version 10 is owned by caller 7 but is Building with
an empty artifact path, so the create is rejected with a 400, the store is
unchanged and no external command is attempted. -/
theorem create_deployment_readiness_gate_witness :
    (∃ d,
      (DeploymentService.create_deployment sampleSettings true
        (CmdResult.completed 0 "ok" "") db0 { replicas := 1, version_id := some 10 }
        7 100).result = Except.error (ApiError.badRequest d)) ∧
    (DeploymentService.create_deployment sampleSettings true
      (CmdResult.completed 0 "ok" "") db0 { replicas := 1, version_id := some 10 }
      7 100).state = db0 ∧
    (DeploymentService.create_deployment sampleSettings true
      (CmdResult.completed 0 "ok" "") db0 { replicas := 1, version_id := some 10 }
      7 100).events = [] :=
  (create_deployment_readiness_gate sampleSettings true (CmdResult.completed 0 "ok" "")
    db0 { replicas := 1, version_id := some 10 } 7 100).2 versionBuilding
    (by decide) (by decide) (Or.inl (by decide))

/-- C5: a model looked up directly by (id, owner) reports an ownership
mismatch as 404 NotFound, exactly as an absent id; a version or deployment
that exists but whose owning model does not resolve to the caller is reported
as 403 Forbidden. -/
theorem ownership_error_reporting (db : DB) (user_id : Nat) :
    (∀ model_id : Nat,
      (∀ m ∈ db.models, m.id = model_id → m.user_id ≠ user_id) →
      ModelService.get_model db model_id user_id =
        Except.error (ApiError.notFound "Model not found"))
    ∧
    (∀ version_id version,
      ModelVersionRepository.get_by_id db (some version_id) = some version →
      ModelRepository.get_by_id db version.model_id user_id = none →
      ModelVersionService.get_version db version_id user_id =
        Except.error (ApiError.forbidden "Access denied"))
    ∧
    (∀ deployment_id deployment version,
      DeploymentRepository.get_by_id db (some deployment_id) = some deployment →
      ModelVersionRepository.get_by_id db deployment.version_id = some version →
      ModelRepository.get_by_id db version.model_id user_id = none →
      DeploymentService.get_deployment db deployment_id user_id =
        Except.error (ApiError.forbidden "Access denied")) := by
  refine ⟨?_, ?_, ?_⟩
  · intro model_id hmm
    have hnone : ModelRepository.get_by_id db (some model_id) user_id = none := by
      unfold ModelRepository.get_by_id
      rw [List.find?_eq_none]
      intro m hmem
      simp only [Bool.and_eq_true, beq_iff_eq, Option.some.injEq, not_and]
      intro he hu
      exact hmm m hmem he.symm hu
    simp only [ModelService.get_model, hnone]
  · intro version_id version hv hm
    simp only [ModelVersionService.get_version, hv, hm]
  · intro deployment_id deployment version hd hv hm
    simp only [DeploymentService.get_deployment, hd, hv, hm]

/-- C5 witness: user 7 looking up user 8's model 2 gets the same 404 as for an
absent model, while looking up version 12 or deployment 21 (both under model
2) gets 403 Forbidden. -/
theorem ownership_error_reporting_witness :
    ModelService.get_model db0 2 7 = Except.error (ApiError.notFound "Model not found") ∧
    ModelVersionService.get_version db0 12 7 = Except.error (ApiError.forbidden "Access denied") ∧
    DeploymentService.get_deployment db0 21 7 = Except.error (ApiError.forbidden "Access denied") :=
  ⟨(ownership_error_reporting db0 7).1 2 (by decide),
   (ownership_error_reporting db0 7).2.1 12 versionOfB (by decide) (by decide),
   (ownership_error_reporting db0 7).2.2 21 deployB versionOfB (by decide) (by decide) (by decide)⟩

/-- C6: the claimed 403/404 reporting is absent from the code — the `status`
parameter shadows fastapi's status module, so a foreign-owner update raises
AttributeError (surfaced as a 500), and an absent version likewise; every
error this handler produces carries status code 500, never 403 or 404. The
claimed "status field left unchanged" half does hold: the store is returned
untouched on both error paths. -/
theorem update_version_status_shadowing_bug (db : DB) (version_id : Nat)
    (new_status : ModelVersionStatus) (user_id : Nat) :
    (ModelVersionRepository.get_by_id db (some version_id) = none →
      ModelVersionService.update_version_status db version_id new_status user_id =
        (Except.error (ApiError.unhandledAttributeError
          "ModelVersionStatus has no attribute HTTP_404_NOT_FOUND"), db))
    ∧
    (∀ version,
      ModelVersionRepository.get_by_id db (some version_id) = some version →
      ModelRepository.get_by_id db version.model_id user_id = none →
      ModelVersionService.update_version_status db version_id new_status user_id =
        (Except.error (ApiError.unhandledAttributeError
          "ModelVersionStatus has no attribute HTTP_403_FORBIDDEN"), db))
    ∧
    (∀ e,
      (ModelVersionService.update_version_status db version_id new_status user_id).1 =
        Except.error e →
      e.status_code = 500 ∧
      (ModelVersionService.update_version_status db version_id new_status user_id).2 = db) := by
  refine ⟨?_, ?_, ?_⟩
  · intro h
    simp only [ModelVersionService.update_version_status, h]
  · intro version hv hm
    simp only [ModelVersionService.update_version_status, hv, hm]
  · intro e he
    cases hv : ModelVersionRepository.get_by_id db (some version_id) with
    | none =>
      simp only [ModelVersionService.update_version_status, hv,
        Except.error.injEq] at he ⊢
      subst he
      exact ⟨rfl, trivial⟩
    | some version =>
      cases hm : ModelRepository.get_by_id db version.model_id user_id with
      | none =>
        simp only [ModelVersionService.update_version_status, hv, hm,
          Except.error.injEq] at he ⊢
        subst he
        exact ⟨rfl, trivial⟩
      | some m =>
        simp only [ModelVersionService.update_version_status, hv, hm] at he
        exact Except.noConfusion he

/-- C6 failing input: user 7 forcing version 12 (owned by user 8) to Ready is
met with the AttributeError-turned-500, not a 403 — and the absent version 99
with the same, not a 404; the store is unchanged both times. -/
theorem update_version_status_shadowing_bug_witness :
    ModelVersionService.update_version_status db0 12 ModelVersionStatus.ready 7 =
      (Except.error (ApiError.unhandledAttributeError
        "ModelVersionStatus has no attribute HTTP_403_FORBIDDEN"), db0) ∧
    ModelVersionService.update_version_status db0 99 ModelVersionStatus.ready 7 =
      (Except.error (ApiError.unhandledAttributeError
        "ModelVersionStatus has no attribute HTTP_404_NOT_FOUND"), db0) ∧
    (ApiError.unhandledAttributeError
      "ModelVersionStatus has no attribute HTTP_403_FORBIDDEN").status_code = 500 :=
  ⟨(update_version_status_shadowing_bug db0 12 ModelVersionStatus.ready 7).2.1
      versionOfB (by decide) (by decide),
   (update_version_status_shadowing_bug db0 99 ModelVersionStatus.ready 7).1 (by decide),
   ((update_version_status_shadowing_bug db0 12 ModelVersionStatus.ready 7).2.2
      (ApiError.unhandledAttributeError
        "ModelVersionStatus has no attribute HTTP_403_FORBIDDEN") (by decide)).1⟩

/-- C8: the Helm uninstall treats a non-zero exit whose stderr reports the
release as not found (case-insensitively) as success, while any other non-zero
exit of the uninstall command is a hard failure; the uninstall command is
attempted in both cases. -/
theorem undeploy_model_idempotent_teardown (release_name nspace : String)
    (returncode : Int) (stdout stderr : String) (h : returncode ≠ 0) :
    (pyInStr "not found" (pyLower stderr) = true →
      HelmDeploymentService.undeploy_model (CmdResult.completed returncode stdout stderr)
        release_name nspace =
        (Except.ok (), [ExtEvent.helmUninstall release_name nspace]))
    ∧
    (pyInStr "not found" (pyLower stderr) = false →
      HelmDeploymentService.undeploy_model (CmdResult.completed returncode stdout stderr)
        release_name nspace =
        (Except.error ("Helm uninstall failed: " ++ stderr),
         [ExtEvent.helmUninstall release_name nspace])) := by
  constructor <;> intro hc <;>
    simp [HelmDeploymentService.undeploy_model, h, hc]

/-- C8 witness: exit code 1 with "Error: uninstall: Release not found" in
stderr is success; exit code 1 with unrelated stderr raises. -/
theorem undeploy_model_idempotent_teardown_witness :
    HelmDeploymentService.undeploy_model
      (CmdResult.completed 1 "" "Error: uninstall: Release not found") "model-11-50" "user-7" =
      (Except.ok (), [ExtEvent.helmUninstall "model-11-50" "user-7"]) ∧
    HelmDeploymentService.undeploy_model
      (CmdResult.completed 1 "" "connection refused") "model-11-50" "user-7" =
      (Except.error ("Helm uninstall failed: " ++ "connection refused"),
       [ExtEvent.helmUninstall "model-11-50" "user-7"]) :=
  ⟨(undeploy_model_idempotent_teardown "model-11-50" "user-7" 1 ""
      "Error: uninstall: Release not found" (by decide)).1 (by decide),
   (undeploy_model_idempotent_teardown "model-11-50" "user-7" 1 ""
      "connection refused" (by decide)).2 (by decide)⟩

/-- C10: at the API layer the path parameter overwrites any body-supplied
parent id before the service runs, so the outcome of creating a version or a
deployment is independent of the id carried in the request body. -/
theorem api_path_id_overrides_body (s : Settings) (chart_exists : Bool)
    (helm_cmd : CmdResult) (db : DB) (model_id version_id : Nat)
    (version_data : ModelVersionCreate) (deployment_data : DeploymentCreate)
    (user_id clock : Nat) (body_model_id body_version_id : Option Nat) :
    api_create_model_version db model_id
        { version_data with model_id := body_model_id } user_id =
      api_create_model_version db model_id version_data user_id ∧
    api_create_deployment s chart_exists helm_cmd db version_id
        { deployment_data with version_id := body_version_id } user_id clock =
      api_create_deployment s chart_exists helm_cmd db version_id deployment_data
        user_id clock := by
  cases version_data
  cases deployment_data
  exact ⟨rfl, rfl⟩

/-- The Helm uninstall path always attempts exactly one uninstall command,
whatever its outcome. -/
theorem undeploy_model_events (cmd : CmdResult) (release_name nspace : String) :
    (HelmDeploymentService.undeploy_model cmd release_name nspace).2 =
      [ExtEvent.helmUninstall release_name nspace] := by
  cases cmd with
  | raised msg => rfl
  | completed rc out err =>
    by_cases h : rc ≠ 0
    · by_cases hc : pyInStr "not found" (pyLower err) = true <;>
        simp [HelmDeploymentService.undeploy_model, h, hc]
    · simp [HelmDeploymentService.undeploy_model, h]

/-- C3: for an existing deployment whose ownership chain resolves to the
caller, delete_deployment succeeds for every outcome of the external uninstall
— including a raised exception — and the deployment row is deleted, after one
uninstall attempt. -/
theorem delete_deployment_resilience (helm_cmd : CmdResult) (db : DB)
    (deployment_id user_id : Nat) (deployment : DeploymentRow) (version : ModelVersionRow)
    (hd : DeploymentRepository.get_by_id db (some deployment_id) = some deployment)
    (hv : ModelVersionRepository.get_by_id db deployment.version_id = some version)
    (hm : ModelRepository.get_by_id db version.model_id user_id ≠ none) :
    (DeploymentService.delete_deployment helm_cmd db deployment_id user_id).result =
      Except.ok () ∧
    (DeploymentService.delete_deployment helm_cmd db deployment_id user_id).state =
      DeploymentRepository.delete db deployment ∧
    (∀ d ∈ (DeploymentService.delete_deployment helm_cmd db deployment_id
        user_id).state.deployments, d.id ≠ deployment.id) ∧
    (DeploymentService.delete_deployment helm_cmd db deployment_id user_id).events =
      [ExtEvent.helmUninstall deployment.k8s_service_name ("user-" ++ toString user_id)] := by
  obtain ⟨m, hm2⟩ := Option.ne_none_iff_exists'.mp hm
  have key : DeploymentService.delete_deployment helm_cmd db deployment_id user_id =
      ⟨Except.ok (), DeploymentRepository.delete db deployment,
       (HelmDeploymentService.undeploy_model helm_cmd deployment.k8s_service_name
         ("user-" ++ toString user_id)).2⟩ := by
    simp only [DeploymentService.delete_deployment, hd, hv, hm2]
  refine ⟨by rw [key], by rw [key], ?_, by rw [key]; exact undeploy_model_events _ _ _⟩
  rw [key]
  intro d hmem
  simp only [DeploymentRepository.delete, List.mem_filter] at hmem
  exact of_decide_eq_true hmem.2

/-- C3 witness: deleting deployment 20 as its owner 7 succeeds and removes the
row even though the uninstall subprocess raises. -/
theorem delete_deployment_resilience_witness :
    (DeploymentService.delete_deployment (CmdResult.raised "connection refused") db0 20 7).result =
      Except.ok () ∧
    (DeploymentService.delete_deployment (CmdResult.raised "connection refused") db0 20 7).state =
      DeploymentRepository.delete db0 deployA ∧
    (∀ d ∈ (DeploymentService.delete_deployment (CmdResult.raised "connection refused")
        db0 20 7).state.deployments, d.id ≠ deployA.id) ∧
    (DeploymentService.delete_deployment (CmdResult.raised "connection refused") db0 20 7).events =
      [ExtEvent.helmUninstall deployA.k8s_service_name ("user-" ++ toString 7)] :=
  delete_deployment_resilience (CmdResult.raised "connection refused") db0 20 7 deployA
    versionReady (by decide) (by decide) (by decide)

/-- Two versions collide when they share the (model_id, version_tag) pair. -/
def noTagCollision (v1 v2 : ModelVersionRow) : Prop :=
  ¬(v1.model_id = v2.model_id ∧ v1.version_tag = v2.version_tag)

/-- C4: a create_version attempt whose (model_id, version_tag) pair already
exists matches case-sensitively and exactly, is rejected (400 when the model
resolves to the caller) and leaves the store — the first version included —
unchanged; and create_version preserves at-most-one-version-per-pair. -/
theorem create_version_uniqueness (db : DB) (version_data : ModelVersionCreate)
    (user_id : Nat) :
    (∀ existing,
      ModelVersionRepository.get_by_model_and_tag db version_data.model_id
        version_data.version_tag = some existing →
      existing.model_id = version_data.model_id ∧
      existing.version_tag = version_data.version_tag ∧
      (ModelVersionService.create_version db version_data user_id).2 = db ∧
      (ModelRepository.get_by_id db version_data.model_id user_id ≠ none →
        ∃ d, (ModelVersionService.create_version db version_data user_id).1 =
          Except.error (ApiError.badRequest d)))
    ∧
    (db.versions.Pairwise noTagCollision →
      (ModelVersionService.create_version db version_data user_id).2.versions.Pairwise
        noTagCollision) := by
  constructor
  · intro existing hfind
    have hp := List.find?_some hfind
    simp only [Bool.and_eq_true, beq_iff_eq] at hp
    refine ⟨hp.1, hp.2, ?_, ?_⟩
    · cases hm : ModelRepository.get_by_id db version_data.model_id user_id with
      | none => simp only [ModelVersionService.create_version, hm]
      | some m => simp only [ModelVersionService.create_version, hm, hfind]
    · intro hm
      obtain ⟨m, hm2⟩ := Option.ne_none_iff_exists'.mp hm
      exact ⟨"Version tag '" ++ version_data.version_tag ++ "' already exists for this model",
        by simp only [ModelVersionService.create_version, hm2, hfind]⟩
  · intro hpw
    cases hm : ModelRepository.get_by_id db version_data.model_id user_id with
    | none => simpa only [ModelVersionService.create_version, hm] using hpw
    | some m =>
      cases hfind : ModelVersionRepository.get_by_model_and_tag db version_data.model_id
          version_data.version_tag with
      | some existing => simpa only [ModelVersionService.create_version, hm, hfind] using hpw
      | none =>
        simp only [ModelVersionService.create_version, hm, hfind,
          ModelVersionRepository.create]
        rw [List.pairwise_append]
        refine ⟨hpw, List.pairwise_singleton _ _, ?_⟩
        intro a hmem b hb
        simp only [List.mem_singleton] at hb
        subst hb
        have hnone := List.find?_eq_none.mp hfind a hmem
        simp only [Bool.and_eq_true, beq_iff_eq, not_and] at hnone
        intro hcol
        exact hnone hcol.1 hcol.2

/-- C4 witness: creating a second "v1" for model 1 is rejected with a 400,
leaves db0 — and versionBuilding in it — unchanged, and db0 satisfies the
at-most-one-version-per-pair invariant which is then preserved. -/
theorem create_version_uniqueness_witness :
    (versionBuilding.model_id = some 1 ∧ versionBuilding.version_tag = "v1" ∧
      (ModelVersionService.create_version db0
        { version_tag := "v1", s3_path := "x", model_id := some 1 } 7).2 = db0 ∧
      (ModelRepository.get_by_id db0 (some 1) 7 ≠ none →
        ∃ d, (ModelVersionService.create_version db0
          { version_tag := "v1", s3_path := "x", model_id := some 1 } 7).1 =
          Except.error (ApiError.badRequest d))) ∧
    (ModelVersionService.create_version db0
      { version_tag := "v1", s3_path := "x", model_id := some 1 } 7).2.versions.Pairwise
      noTagCollision := by
  have h := create_version_uniqueness db0
    { version_tag := "v1", s3_path := "x", model_id := some 1 } 7
  exact ⟨h.1 versionBuilding (by decide), h.2 (by unfold noTagCollision; decide)⟩

/-- Deleting the row just inserted by DeploymentRepository.create restores the
deployments table, provided no existing row already carries the fresh
autoincrement id. -/
theorem delete_create_restores (db : DB) (deployment_data : DeploymentCreate)
    (clock : Nat) (hids : ∀ d ∈ db.deployments, d.id ≠ db.next_deployment_id) :
    (DeploymentRepository.delete (DeploymentRepository.create db deployment_data clock).2
      (DeploymentRepository.create db deployment_data clock).1).deployments =
      db.deployments := by
  simp only [DeploymentRepository.create, DeploymentRepository.delete]
  rw [List.filter_append]
  have h1 : db.deployments.filter
      (fun d => decide (d.id ≠ db.next_deployment_id)) = db.deployments :=
    List.filter_eq_self.mpr (fun d hmem => decide_eq_true (hids d hmem))
  simp [h1]
  exact hids

/-- C2: when the version resolves, is owned and deployable but the Helm apply
fails — missing chart, raised call (timeout included) or non-zero exit — the
create surfaces a 500 carrying the underlying cause and the deployments table
is exactly what it was before the request: the row persisted earlier in the
request is gone. -/
theorem create_deployment_rollback (s : Settings) (chart_exists : Bool)
    (helm_cmd : CmdResult) (db : DB) (deployment_data : DeploymentCreate)
    (user_id clock : Nat) (version : ModelVersionRow)
    (hv : ModelVersionRepository.get_by_id db deployment_data.version_id = some version)
    (hm : ModelRepository.get_by_id db version.model_id user_id ≠ none)
    (hready : version.status = ModelVersionStatus.ready)
    (hpath : version.s3_path ≠ "")
    (hids : ∀ d ∈ db.deployments, d.id ≠ db.next_deployment_id)
    (hfail : chart_exists = false ∨ (∃ msg, helm_cmd = CmdResult.raised msg) ∨
      ∃ rc out err, helm_cmd = CmdResult.completed rc out err ∧ rc ≠ 0) :
    (∃ cause,
      (DeploymentService.create_deployment s chart_exists helm_cmd db deployment_data
        user_id clock).result = Except.error (ApiError.internalServerError
          ("Failed to deploy model to Kubernetes: " ++ cause))) ∧
    (DeploymentService.create_deployment s chart_exists helm_cmd db deployment_data
      user_id clock).state.deployments = db.deployments := by
  obtain ⟨m, hm2⟩ := Option.ne_none_iff_exists'.mp hm
  unfold DeploymentService.create_deployment
  simp only [hv, hm2]
  rw [if_neg (by simp [hready]), if_neg hpath]
  have hrestore := delete_create_restores db deployment_data clock hids
  rcases hfail with hce | ⟨msg, hcmd⟩ | ⟨rc, out, err, hcmd, hrc⟩
  · subst hce
    exact ⟨⟨"Helm chart not found", by simp [HelmDeploymentService.deploy_model]⟩,
      by simp [HelmDeploymentService.deploy_model, hrestore]⟩
  · subst hcmd
    cases chart_exists with
    | false =>
      exact ⟨⟨"Helm chart not found", by simp [HelmDeploymentService.deploy_model]⟩,
        by simp [HelmDeploymentService.deploy_model, hrestore]⟩
    | true =>
      exact ⟨⟨msg, by simp [HelmDeploymentService.deploy_model]⟩,
        by simp [HelmDeploymentService.deploy_model, hrestore]⟩
  · subst hcmd
    cases chart_exists with
    | false =>
      exact ⟨⟨"Helm chart not found", by simp [HelmDeploymentService.deploy_model]⟩,
        by simp [HelmDeploymentService.deploy_model, hrestore]⟩
    | true =>
      exact ⟨⟨"Helm install failed: " ++ err,
          by simp [HelmDeploymentService.deploy_model, hrc]⟩,
        by simp [HelmDeploymentService.deploy_model, hrc, hrestore]⟩

/-- C2 witness: deploying the Ready version 11 while the Helm install times
out (a raised call) yields a 500 carrying the cause, and the deployments table
is unchanged. -/
theorem create_deployment_rollback_witness :
    (∃ cause,
      (DeploymentService.create_deployment sampleSettings true
        (CmdResult.raised "Command timed out") db0 { replicas := 1, version_id := some 11 }
        7 100).result = Except.error (ApiError.internalServerError
          ("Failed to deploy model to Kubernetes: " ++ cause))) ∧
    (DeploymentService.create_deployment sampleSettings true
      (CmdResult.raised "Command timed out") db0 { replicas := 1, version_id := some 11 }
      7 100).state.deployments = db0.deployments :=
  create_deployment_rollback sampleSettings true (CmdResult.raised "Command timed out")
    db0 { replicas := 1, version_id := some 11 } 7 100 versionReady (by decide) (by decide)
    (by decide) (by decide) (by decide)
    (Or.inr (Or.inl ⟨"Command timed out", rfl⟩))

/-- A row whose id matches the freshly created row's id is a member of the
deployments table after DeploymentRepository.update writes it back. -/
theorem mem_update_create (db : DB) (deployment_data : DeploymentCreate) (clock : Nat)
    (d2 : DeploymentRow)
    (hid : (DeploymentRepository.create db deployment_data clock).1.id = d2.id) :
    d2 ∈ (DeploymentRepository.update
      (DeploymentRepository.create db deployment_data clock).2 d2).deployments := by
  have hmem : (DeploymentRepository.create db deployment_data clock).1 ∈
      (DeploymentRepository.create db deployment_data clock).2.deployments := by
    simp [DeploymentRepository.create]
  unfold DeploymentRepository.update
  refine List.mem_map.mpr ⟨(DeploymentRepository.create db deployment_data clock).1, hmem, ?_⟩
  rw [if_pos hid]

/-- C7: every successful create_deployment returns a deployment whose URL is
exactly http://INGRESS_HOST:30080INGRESS_BASE_PATH/\x7bid\x7d — non-null,
fixed NodePort 30080, the deployment's own id as the path suffix — and that
row, URL included, is persisted in the store. -/
theorem create_deployment_route_url (s : Settings) (chart_exists : Bool)
    (helm_cmd : CmdResult) (db : DB) (deployment_data : DeploymentCreate)
    (user_id clock : Nat) (dep : DeploymentRow)
    (hok : (DeploymentService.create_deployment s chart_exists helm_cmd db deployment_data
      user_id clock).result = Except.ok dep) :
    dep.url = some ("http://" ++ s.INGRESS_HOST ++ ":30080" ++ s.INGRESS_BASE_PATH
      ++ "/" ++ toString dep.id) ∧
    dep.url ≠ none ∧
    dep ∈ (DeploymentService.create_deployment s chart_exists helm_cmd db deployment_data
      user_id clock).state.deployments := by
  unfold DeploymentService.create_deployment at hok ⊢
  cases hv : ModelVersionRepository.get_by_id db deployment_data.version_id with
  | none =>
    simp only [hv] at hok
    exact Except.noConfusion hok
  | some version =>
    simp only [hv] at hok ⊢
    cases hm : ModelRepository.get_by_id db version.model_id user_id with
    | none =>
      simp only [hm] at hok
      exact Except.noConfusion hok
    | some m =>
      simp only [hm] at hok ⊢
      by_cases hs : version.status = ModelVersionStatus.ready
      · by_cases hp : version.s3_path = ""
        · rw [if_neg (by simp [hs]), if_pos hp] at hok
          exact Except.noConfusion hok
        · rw [if_neg (by simp [hs]), if_neg hp] at hok ⊢
          cases chart_exists with
          | false =>
            simp only [HelmDeploymentService.deploy_model, Bool.not_false, if_pos] at hok
            exact Except.noConfusion hok
          | true =>
            cases helm_cmd with
            | raised msg =>
              simp only [HelmDeploymentService.deploy_model, Bool.not_true,
                Bool.false_eq_true, if_false] at hok
              exact Except.noConfusion hok
            | completed rc out err =>
              by_cases hrc : rc = 0
              · simp only [HelmDeploymentService.deploy_model, Bool.not_true,
                  Bool.false_eq_true, if_false, hrc] at hok ⊢
                rw [if_neg (by simp)] at hok ⊢
                simp only [Except.ok.injEq] at hok
                subst hok
                refine ⟨rfl, by simp, ?_⟩
                exact mem_update_create db deployment_data clock _ rfl
              · simp only [HelmDeploymentService.deploy_model, Bool.not_true,
                  Bool.false_eq_true, if_false] at hok
                rw [if_pos hrc] at hok
                exact Except.noConfusion hok
      · rw [if_pos hs] at hok
        exact Except.noConfusion hok

/-- C7 witness: deploying the Ready version 11 as user 7 at clock 100 succeeds
and the returned deployment carries id 22 and URL
http://localhost:30080/api/v1/predict/22, persisted in the store. -/
theorem create_deployment_route_url_witness :
    ({ id := 22, version_id := some 11, k8s_service_name := "model-11-100",
       url := some "http://localhost:30080/api/v1/predict/22",
       replicas := 1 } : DeploymentRow).url =
      some ("http://" ++ sampleSettings.INGRESS_HOST ++ ":30080"
        ++ sampleSettings.INGRESS_BASE_PATH ++ "/" ++ toString
          ({ id := 22, version_id := some 11, k8s_service_name := "model-11-100",
             url := some "http://localhost:30080/api/v1/predict/22",
             replicas := 1 } : DeploymentRow).id) ∧
    ({ id := 22, version_id := some 11, k8s_service_name := "model-11-100",
       url := some "http://localhost:30080/api/v1/predict/22",
       replicas := 1 } : DeploymentRow).url ≠ none ∧
    ({ id := 22, version_id := some 11, k8s_service_name := "model-11-100",
       url := some "http://localhost:30080/api/v1/predict/22",
       replicas := 1 } : DeploymentRow) ∈
      (DeploymentService.create_deployment sampleSettings true
        (CmdResult.completed 0 "ok" "") db0 { replicas := 1, version_id := some 11 }
        7 100).state.deployments :=
  create_deployment_route_url sampleSettings true (CmdResult.completed 0 "ok" "") db0
    { replicas := 1, version_id := some 11 } 7 100
    { id := 22, version_id := some 11, k8s_service_name := "model-11-100",
      url := some "http://localhost:30080/api/v1/predict/22", replicas := 1 }
    (by decide)

/-- C9: user registration never fails because of tenant provisioning — for a
free email the user is persisted and returned whatever the Kubernetes
outcomes; the setup itself runs namespace, ResourceQuota, NetworkPolicy in
that order, treats already-exists (409) at each step as success, and a quota
failure propagates before any NetworkPolicy call is attempted. -/
theorem create_user_tenant_resilience (hash : String → String)
    (read_outcome : ReadNsOutcome)
    (ns_outcome quota_outcome policy_outcome : ApiCallOutcome) (db : UserDB)
    (email password : String)
    (hfree : UserRepository.get_by_email db email = none) :
    ((UserService.create_user hash read_outcome ns_outcome quota_outcome policy_outcome
        db email password).result =
      Except.ok { id := db.next_user_id, email := email, password_hash := hash password } ∧
     ({ id := db.next_user_id, email := email, password_hash := hash password } : UserRow) ∈
      (UserService.create_user hash read_outcome ns_outcome quota_outcome policy_outcome
        db email password).state.users)
    ∧
    (∀ (uid : Nat) (ro : ReadNsOutcome) (no qo po : ApiCallOutcome),
      (ro = ReadNsOutcome.found ∨ ro = ReadNsOutcome.notFound) →
      (no = ApiCallOutcome.success ∨ no = ApiCallOutcome.conflict) →
      (qo = ApiCallOutcome.success ∨ qo = ApiCallOutcome.conflict) →
      (po = ApiCallOutcome.success ∨ po = ApiCallOutcome.conflict) →
      KubernetesClient.setup_user_namespace ro no qo po uid =
        (Except.ok ("user-" ++ toString uid),
         ExtEvent.readNamespace ("user-" ++ toString uid) ::
           (if ro = ReadNsOutcome.notFound then
             [ExtEvent.createNamespace ("user-" ++ toString uid)] else []) ++
           [ExtEvent.createResourceQuota ("user-" ++ toString uid),
            ExtEvent.createNetworkPolicy ("user-" ++ toString uid)]))
    ∧
    (∀ (uid : Nat) (ro : ReadNsOutcome) (no po : ApiCallOutcome) (msg : String),
      (ro = ReadNsOutcome.found ∨ ro = ReadNsOutcome.notFound) →
      (no = ApiCallOutcome.success ∨ no = ApiCallOutcome.conflict) →
      KubernetesClient.setup_user_namespace ro no (ApiCallOutcome.apiError msg) po uid =
        (Except.error msg,
         ExtEvent.readNamespace ("user-" ++ toString uid) ::
           (if ro = ReadNsOutcome.notFound then
             [ExtEvent.createNamespace ("user-" ++ toString uid)] else []) ++
           [ExtEvent.createResourceQuota ("user-" ++ toString uid)])) := by
  refine ⟨⟨?_, ?_⟩, ?_, ?_⟩
  · simp only [UserService.create_user, hfree, UserRepository.create]
  · simp [UserService.create_user, hfree, UserRepository.create]
  · intro uid ro no qo po hro hno hqo hpo
    rcases hro with h | h <;> subst h <;>
      rcases hno with h | h <;> subst h <;>
        rcases hqo with h | h <;> subst h <;>
          rcases hpo with h | h <;> subst h <;>
            simp [KubernetesClient.setup_user_namespace, KubernetesClient.create_namespace,
              KubernetesClient.namespace_exists, KubernetesClient.create_resource_quota,
              KubernetesClient.create_network_policy]
  · intro uid ro no po msg hro hno
    rcases hro with h | h <;> subst h <;>
      rcases hno with h | h <;> subst h <;>
        simp [KubernetesClient.setup_user_namespace, KubernetesClient.create_namespace,
          KubernetesClient.namespace_exists, KubernetesClient.create_resource_quota,
          KubernetesClient.create_network_policy]

/-- C9 witness: registering a fresh email while every Kubernetes call reports
409 already-exists still creates user 1, and the tenant setup sequence is
namespace probe, namespace create, ResourceQuota, NetworkPolicy in order; a
quota failure stops before the NetworkPolicy call. -/
theorem create_user_tenant_resilience_witness :
    ((UserService.create_user (fun _ => "hashed") ReadNsOutcome.notFound
        ApiCallOutcome.conflict ApiCallOutcome.conflict ApiCallOutcome.conflict
        userDB0 "a@b.c" "pw").result =
      Except.ok { id := 1, email := "a@b.c", password_hash := "hashed" } ∧
     ({ id := 1, email := "a@b.c", password_hash := "hashed" } : UserRow) ∈
      (UserService.create_user (fun _ => "hashed") ReadNsOutcome.notFound
        ApiCallOutcome.conflict ApiCallOutcome.conflict ApiCallOutcome.conflict
        userDB0 "a@b.c" "pw").state.users) ∧
    KubernetesClient.setup_user_namespace ReadNsOutcome.notFound ApiCallOutcome.conflict
      ApiCallOutcome.conflict ApiCallOutcome.conflict 1 =
      (Except.ok ("user-" ++ toString 1),
       ExtEvent.readNamespace ("user-" ++ toString 1) ::
         (if (ReadNsOutcome.notFound : ReadNsOutcome) = ReadNsOutcome.notFound then
           [ExtEvent.createNamespace ("user-" ++ toString 1)] else []) ++
         [ExtEvent.createResourceQuota ("user-" ++ toString 1),
          ExtEvent.createNetworkPolicy ("user-" ++ toString 1)]) ∧
    KubernetesClient.setup_user_namespace ReadNsOutcome.found ApiCallOutcome.success
      (ApiCallOutcome.apiError "quota api error") ApiCallOutcome.success 1 =
      (Except.error "quota api error",
       ExtEvent.readNamespace ("user-" ++ toString 1) ::
         (if (ReadNsOutcome.found : ReadNsOutcome) = ReadNsOutcome.notFound then
           [ExtEvent.createNamespace ("user-" ++ toString 1)] else []) ++
         [ExtEvent.createResourceQuota ("user-" ++ toString 1)]) := by
  have h := create_user_tenant_resilience (fun _ => "hashed") ReadNsOutcome.notFound
    ApiCallOutcome.conflict ApiCallOutcome.conflict ApiCallOutcome.conflict
    userDB0 "a@b.c" "pw" (by decide)
  exact ⟨h.1, h.2.1 1 ReadNsOutcome.notFound ApiCallOutcome.conflict ApiCallOutcome.conflict
      ApiCallOutcome.conflict (Or.inr rfl) (Or.inr rfl) (Or.inr rfl) (Or.inr rfl),
    h.2.2 1 ReadNsOutcome.found ApiCallOutcome.success ApiCallOutcome.success
      "quota api error" (Or.inl rfl) (Or.inl rfl)⟩
